import Mathlib

/-!
Shallow embedding of the lucidpy document model and client
(src/lucidpy/models.py and src/lucidpy/client.py).

Modelling conventions:
* Python runtime values that flow through the serializer are modelled by the
  inductive `Lucid.PyVal` (None, int, float, str, list, dict).  Python floats
  are modelled as rationals (`Rat`): the code never does float arithmetic on
  them, it only compares them with constants such as 0, 0.5 and 1, and the
  ordering of floats agrees with the ordering of the rationals they denote.
* Python dicts are modelled as association lists in insertion order; pydantic
  model instances expose their fields through `__dict__` in field-declaration
  order, which the `toPy` encodings below reproduce.
* Fallible construction (pydantic validation, explicit `raise`) is modelled
  with `Except Lucid.PyErr`.
-/

namespace Lucid

/-- A Python exception as raised by the validators in models.py:
either a `TypeError` or a `ValueError` with its message. -/
inductive PyErr where
  | typeError (msg : String)
  | valueError (msg : String)
deriving Repr, DecidableEq

/-- A Python value as it appears in the data handled by
`_LucidBase.model_dump_json` (models.py lines 48-72). -/
inductive PyVal where
  | none
  | int (n : Int)
  | float (q : Rat)
  | str (s : String)
  | list (xs : List PyVal)
  | dict (kvs : List (String × PyVal))
deriving Repr

/-- Python `v is None` for a `PyVal`. -/
def PyVal.isNone : PyVal → Bool
  | .none => true
  | _ => false

/-- Python `v == 0` (comparison against the int literal 0): true for the
int 0 and the float 0.0, false for every other value modelled here. -/
def PyVal.eqZero : PyVal → Bool
  | .int n => n == 0
  | .float q => q == 0
  | _ => false

/-- Keys of a dict value (empty for non-dicts). -/
def PyVal.keys : PyVal → List String
  | .dict kvs => kvs.map Prod.fst
  | _ => []

/-- Lookup of a key in a dict value. -/
def PyVal.lookup (v : PyVal) (k : String) : Option PyVal :=
  match v with
  | .dict kvs => kvs.lookup k
  | _ => Option.none

/-- The filter condition of `recursive_model_dump` (models.py line 54/60/66):
`v is not None or not ignore_null or v == 0`. -/
def keepVal (ignore_null : Bool) (v : PyVal) : Bool :=
  !v.isNone || !ignore_null || v.eqZero

mutual
/-- Model of `recursive_model_dump` from `_LucidBase.model_dump_json`
(models.py lines 49-69): walk the value tree; on mappings and sequences
drop the entries for which `keepVal` is false and recurse on the rest;
return every other value unchanged.  (A `BaseModel` is walked through its
`__dict__`, which the `toPy` encodings below turn into a `.dict`.) -/
def recursive_model_dump (ignore_null : Bool) : PyVal → PyVal
  | .dict kvs => .dict (dump_fields ignore_null kvs)
  | .list xs => .list (dump_list ignore_null xs)
  | .none => .none
  | .int n => .int n
  | .float q => .float q
  | .str s => .str s

/-- The dict comprehension of models.py lines 51-55 / 62-67: keep the
key-value pairs passing `keepVal` and dump their values recursively. -/
def dump_fields (ignore_null : Bool) : List (String × PyVal) → List (String × PyVal)
  | [] => []
  | (k, v) :: kvs =>
    if keepVal ignore_null v then
      (k, recursive_model_dump ignore_null v) :: dump_fields ignore_null kvs
    else
      dump_fields ignore_null kvs

/-- The list comprehension of models.py lines 57-61: keep the elements
passing `keepVal` and dump them recursively. -/
def dump_list (ignore_null : Bool) : List PyVal → List PyVal
  | [] => []
  | v :: vs =>
    if keepVal ignore_null v then
      recursive_model_dump ignore_null v :: dump_list ignore_null vs
    else
      dump_list ignore_null vs
end

/-- An argument to the `classmethod validate` of `ID` / `Color`: either a
Python `str`, or any non-string value (all non-strings are treated alike by
the `isinstance(v, str)` guard). -/
inductive PyArg where
  | str (s : String)
  | nonStr
deriving Repr, DecidableEq

/-- One character of the regex class `[a-zA-Z0-9\-\_\.\~]` used by
`ID.validate` (models.py line 42). -/
def isIdChar (c : Char) : Bool :=
  ('a' ≤ c && c ≤ 'z') || ('A' ≤ c && c ≤ 'Z') || ('0' ≤ c && c ≤ '9') ||
    c == '-' || c == '_' || c == '.' || c == '~'

/-- One character of the regex class `[0-9a-fA-F]` used by
`Color.validate` (models.py line 22). -/
def isHexDigit (c : Char) : Bool :=
  ('0' ≤ c && c ≤ '9') || ('a' ≤ c && c ≤ 'f') || ('A' ≤ c && c ≤ 'F')

/-- Models `re.match(r"^[class]{lo,hi}$", s) is not None` for a character
class `cls` that does not contain the newline character.  Per the Python
`re` documentation, without `re.MULTILINE` the anchor `$` matches at the end
of the string *or just before a newline at the end of the string*; so the
pattern matches iff either the whole string is 'lo' to 'hi' class characters,
or the string is such a block followed by one final newline. -/
def reClassMatch (cls : Char → Bool) (lo hi : Nat) (s : String) : Bool :=
  let cs := s.data
  (cs.all cls && decide (lo ≤ cs.length) && decide (cs.length ≤ hi)) ||
    (match cs.getLast? with
     | some c =>
       c == '\n' && cs.dropLast.all cls &&
         decide (lo ≤ cs.dropLast.length) && decide (cs.dropLast.length ≤ hi)
     | Option.none => false)

/-- Model of the test `re.match` performs in `ID.validate`
(models.py line 42), with Python dollar-anchor semantics. -/
def idMatch (s : String) : Bool :=
  reClassMatch isIdChar 1 36 s

/-- Models `re.match(r"^#(?:[0-9a-fA-F]{3}){1,2}$", v)` of `Color.validate`
(models.py line 22): a hash sign followed by exactly 3 or exactly 6 hex
digits, where the `$` again also matches just before one final newline. -/
def colorMatch (s : String) : Bool :=
  match s.data with
  | '#' :: rest =>
    (rest.all isHexDigit && (rest.length == 3 || rest.length == 6)) ||
      (match rest.getLast? with
       | some c =>
         c == '\n' && rest.dropLast.all isHexDigit &&
           (rest.dropLast.length == 3 || rest.dropLast.length == 6)
       | Option.none => false)
  | _ => false

/-- Model of `ID.validate` (models.py lines 37-44): non-strings raise
`TypeError("string required")`; strings not matching the ID regex raise
`ValueError("Invalid ID format")`; otherwise the input is returned
unchanged. -/
def ID.validate : PyArg → Except PyErr String
  | .nonStr => .error (.typeError "string required")
  | .str v => if idMatch v then .ok v else .error (.valueError "Invalid ID format")

/-- Model of `Color.validate` (models.py lines 17-24): non-strings raise
`TypeError("string required")`; strings not matching the color regex raise
`ValueError("Invalid color format")`; otherwise the input is returned
unchanged. -/
def Color.validate : PyArg → Except PyErr String
  | .nonStr => .error (.typeError "string required")
  | .str v => if colorMatch v then .ok v else .error (.valueError "Invalid color format")

/-- The Identifier format as worded by the spec (section 3): 1 to 36
characters, every character drawn from `[A-Za-z0-9\-_.~]`. -/
def specIdFormat (s : String) : Bool :=
  s.data.all isIdChar && decide (1 ≤ s.data.length) && decide (s.data.length ≤ 36)

/-- The Color format as worded by the spec (section 3): `#RGB` or `#RRGGBB`,
i.e. a hash sign followed by exactly 3 or exactly 6 hex digits. -/
def specColorFormat (s : String) : Bool :=
  match s.data with
  | '#' :: rest => rest.all isHexDigit && (rest.length == 3 || rest.length == 6)
  | _ => false

/-- Model of `Stroke` (models.py lines 81-93): all three fields default to `None`. -/
structure Stroke where
  width : Option Int := Option.none
  color : Option String := Option.none
  style : Option String := Option.none
deriving Repr

/-- Model of `Style` (models.py lines 96-109).  `fill` is a str-or-dict field whose
before-validator wraps plain strings into `{"type": "color", "color": v}`,
so after construction it is a `PyVal`. -/
structure Style where
  fill : PyVal := .dict [("type", .str "color"), ("color", .str "#ffffff")]
  stroke : Option Stroke := some { width := some 1, color := some "#000000", style := some "solid" }
  rounding : Option Int := Option.none
deriving Repr

/-- Model of `Shape` (models.py lines 112-131), field values after validation.
`boundingBox` is a plain Python dict. -/
structure Shape where
  id : String
  type : String
  text : Option String := some ""
  style : Style := {}
  opacity : Option Int := Option.none
  note : Option String := Option.none
  boundingBox : List (String × PyVal) :=
    [("x", .int 0), ("y", .int 0), ("w", .int 50), ("h", .int 50)]
deriving Repr

/-- Model of `Cross` (models.py lines 166-183): a `Shape` with two optional indent
fractions, both defaulting to 0. -/
structure Cross extends Shape where
  x : Option Rat := some 0
  y : Option Rat := some 0
deriving Repr

/-- Model of `Text` (models.py lines 225-236), field values after validation. -/
structure Text where
  text : String
  position : Rat := 0.5
  side : String := "middle"
deriving Repr

/-- Model of `ShapeEndpoint` (models.py lines 294-324), field values after
validation: the before-validator has already replaced a `Shape` argument by
its id, so `shapeId` is a string; `position` is a Python dict whose values
are numbers. -/
structure ShapeEndpoint where
  type : String := "shapeEndpoint"
  style : String := "arrow"
  shapeId : String
  position : List (String × Rat) := [("x", 0.5), ("y", 0.5)]
deriving Repr

mutual
/-- Model of `Line` (models.py lines 239-255), field values after validation.
`text` is a list that may contain `None` elements: the field default is
`[None]` and defaults are not validated. -/
inductive Line where
  | mk (id : String) (lineType : String) (endpoint1 : Endpoint) (endpoint2 : Endpoint)
      (stroke : Stroke) (text : List (Option Text))

/-- Model of `LineEndpoint` (models.py lines 272-291), field values after
validation.  Its `line` field optionally holds a whole `Line`, which makes
the two types mutually recursive. -/
inductive LineEndpoint where
  | mk (type : String) (style : String) (line : Option Line) (line_id : String)
      (position : Rat)

/-- A runtime value of the `Endpoint` base class stored in a `Line`:
either a `ShapeEndpoint` or a `LineEndpoint` instance. -/
inductive Endpoint where
  | shapeE (e : ShapeEndpoint)
  | lineE (e : LineEndpoint)
end

def Line.id : Line → String
  | .mk i _ _ _ _ _ => i

def Line.text : Line → List (Option Text)
  | .mk _ _ _ _ _ t => t

def LineEndpoint.line : LineEndpoint → Option Line
  | .mk _ _ l _ _ => l

def LineEndpoint.line_id : LineEndpoint → String
  | .mk _ _ _ i _ => i

def LineEndpoint.position : LineEndpoint → Rat
  | .mk _ _ _ _ p => p

/-- Model of `Page` (models.py lines 327-335). -/
structure Page where
  id : String
  title : String
  shapes : List Shape := []
  lines : List Line := []

/-- Model of `Document` (models.py lines 338-340): it extends `_LucidBase`, not
`LucidBase`, so its only fields are `version` and `pages`. -/
structure Document where
  version : Int := 1
  pages : List Page

def optStr : Option String → PyVal
  | Option.none => .none
  | some s => .str s

def optInt : Option Int → PyVal
  | Option.none => .none
  | some n => .int n

def optRat : Option Rat → PyVal
  | Option.none => .none
  | some q => .float q

/-- The `__dict__` of a `Stroke` instance, in field-declaration order. -/
def Stroke.toPy (s : Stroke) : PyVal :=
  .dict [("width", optInt s.width), ("color", optStr s.color), ("style", optStr s.style)]

/-- The `__dict__` of a `Style` instance, in field-declaration order. -/
def Style.toPy (s : Style) : PyVal :=
  .dict [("fill", s.fill),
         ("stroke", match s.stroke with | Option.none => .none | some st => st.toPy),
         ("rounding", optInt s.rounding)]

/-- The `__dict__` of a `Shape` instance, in field-declaration order (the
inherited `id` comes first). -/
def Shape.toPy (s : Shape) : PyVal :=
  .dict [("id", .str s.id), ("type", .str s.type), ("text", optStr s.text),
         ("style", s.style.toPy), ("opacity", optInt s.opacity),
         ("note", optStr s.note), ("boundingBox", .dict s.boundingBox)]

/-- The `__dict__` of a `Text` instance, in field-declaration order. -/
def Text.toPy (t : Text) : PyVal :=
  .dict [("text", .str t.text), ("position", .float t.position), ("side", .str t.side)]

/-- The `__dict__` of a `ShapeEndpoint` instance, in field-declaration order
(the inherited `type` and `style` come first). -/
def ShapeEndpoint.toPy (e : ShapeEndpoint) : PyVal :=
  .dict [("type", .str e.type), ("style", .str e.style), ("shapeId", .str e.shapeId),
         ("position", .dict (e.position.map (fun kv => (kv.1, .float kv.2))))]

mutual
/-- The `__dict__` of a `Line` instance, in field-declaration order. -/
def Line.toPy : Line → PyVal
  | .mk i lineType e1 e2 stroke text =>
    .dict [("id", .str i), ("lineType", .str lineType),
           ("endpoint1", e1.toPy), ("endpoint2", e2.toPy),
           ("stroke", stroke.toPy),
           ("text", .list (text.map (fun t => match t with
             | Option.none => PyVal.none
             | some tx => tx.toPy)))]

/-- The `__dict__` of a `LineEndpoint` instance, in field-declaration order. -/
def LineEndpoint.toPy : LineEndpoint → PyVal
  | .mk ty st line line_id pos =>
    .dict [("type", .str ty), ("style", .str st),
           ("line", match line with | Option.none => PyVal.none | some l => l.toPy),
           ("line_id", .str line_id), ("position", .float pos)]

/-- Serialization of an `Endpoint`-typed value: the runtime instance is a
`ShapeEndpoint` or a `LineEndpoint` and is walked through its own
`__dict__`. -/
def Endpoint.toPy : Endpoint → PyVal
  | .shapeE e => e.toPy
  | .lineE e => e.toPy
end

/-- The `__dict__` of a `Page` instance, in field-declaration order. -/
def Page.toPy (p : Page) : PyVal :=
  .dict [("id", .str p.id), ("title", .str p.title),
         ("shapes", .list (p.shapes.map Shape.toPy)),
         ("lines", .list (p.lines.map Line.toPy))]

/-- The `__dict__` of a `Document` instance, in field-declaration order: only
`version` and `pages` (there is no `id` field). -/
def Document.toPy (d : Document) : PyVal :=
  .dict [("version", .int d.version), ("pages", .list (d.pages.map Page.toPy))]

/-- The `Literal` of endpoint arrowhead styles (models.py lines 199-222). -/
def endpoint_styles : List String :=
  ["none", "aggregation", "arrow", "hollowArrow", "openArrow", "async1", "async2",
   "closedSquare", "openSquare", "bpmnConditional", "bpmnDefault", "closedCircle",
   "openCircle", "composition", "exactlyOne", "generalization", "many", "nesting",
   "one", "oneOrMore", "zeroOrMore", "zeroOrOne"]

/-- The `Literal` of shape kinds (models.py lines 116-126). -/
def shape_types : List String :=
  ["rectangle", "circle", "cloud", "diamond", "cross", "hexagon", "octagon",
   "isocolesTriangle", "rightTriangle"]

/-- The `Literal` of line kinds (models.py line 251). -/
def line_types : List String := ["straight", "curved", "elbow"]

/-- Pydantic validation of the `style` field of `Endpoint` against its
`Literal`.  (The pydantic-generated message is abbreviated.) -/
def validateEndpointStyle (s : String) : Except PyErr String :=
  if s ∈ endpoint_styles then .ok s
  else .error (.valueError "Input should be a valid endpoint style")

/-- The runtime value handed to `ShapeEndpoint` as its `shapeId` argument.
Python distinguishes these by type tests: a `Shape` instance, an `ID`
instance (the `str` subclass defined in models.py), a plain `str` that is
not an `ID`, or any other value (`None` when the argument is absent,
since `values.get("shapeId")` returns `None` then). -/
inductive ShapeIdArg where
  | shape (sh : Shape)
  | idInst (s : String)
  | rawStr (s : String)
  | other
deriving Repr

/-- Model of `ShapeEndpoint.check_shape_or_shapeId` (models.py lines 306-313), the
`mode="before"` model validator: a `Shape` instance is replaced by its
`id`; an `ID` instance passes through; everything else — including a plain
`str` that is not an `ID` instance — raises
`ValueError("shape_id must be an instance of ID or Shape")`. -/
def check_shape_or_shapeId : ShapeIdArg → Except PyErr String
  | .shape sh => .ok sh.id
  | .idInst s => .ok s
  | .rawStr _ => .error (.valueError "shape_id must be an instance of ID or Shape")
  | .other => .error (.valueError "shape_id must be an instance of ID or Shape")

/-- Model of `ShapeEndpoint.position_must_be_valid` (models.py lines 315-324): the
position dict must contain keys `x` and `y`, both between 0.0 and 1.0.
(The argument is modelled as a dict with numeric values; the
`isinstance(v, dict)` guard of the source is carried by the type.) -/
def position_must_be_valid (v : List (String × Rat)) :
    Except PyErr (List (String × Rat)) :=
  match v.lookup "x", v.lookup "y" with
  | some x, some y =>
    if 0 ≤ x ∧ x ≤ 1 ∧ 0 ≤ y ∧ y ≤ 1 then .ok v
    else .error (.valueError "x and y must be between 0.0 and 1.0")
  | _, _ => .error (.valueError "position must contain x and y coordinates")

/-- Model of `LineEndpoint.position_must_be_between_0_and_1`
(models.py lines 286-291). -/
def position_must_be_between_0_and_1 (v : Rat) : Except PyErr Rat :=
  if 0 ≤ v ∧ v ≤ 1 then .ok v
  else .error (.valueError "position must be between 0.0 and 1.0")

/-- Model of `Cross.indent_must_be_between_0_and_0_5` (models.py lines 178-183):
`None` passes, any other value must lie between 0.0 and 0.5.  (`name` is
the validated field's name, interpolated into the message.) -/
def indent_must_be_between_0_and_0_5 (name : String) (v : Option Rat) :
    Except PyErr (Option Rat) :=
  match v with
  | Option.none => .ok v
  | some q =>
    if 0 ≤ q ∧ q ≤ (1 / 2 : Rat) then .ok v
    else .error (.valueError (name ++ " must be between 0.0 and 0.5"))

/-- Construction of a `ShapeEndpoint`: first the before-model-validator
`check_shape_or_shapeId` runs, then field validation in declaration order —
the `style` Literal, the `shapeId` field (whose `Union[ID, Shape]`
annotation validates the stored string with `ID.validate`), and the
`position` dict (defaulting to `{"x": 0.5, "y": 0.5}`). -/
def mkShapeEndpoint (shapeId : ShapeIdArg)
    (position : Option (List (String × Rat)) := Option.none)
    (style : String := "arrow") : Except PyErr ShapeEndpoint :=
  match check_shape_or_shapeId shapeId with
  | .error e => .error e
  | .ok sid0 =>
    match validateEndpointStyle style with
    | .error e => .error e
    | .ok st =>
      match ID.validate (.str sid0) with
      | .error e => .error e
      | .ok sid =>
        match position_must_be_valid (position.getD [("x", 0.5), ("y", 0.5)]) with
        | .error e => .error e
        | .ok pos => .ok { type := "shapeEndpoint", style := st, shapeId := sid, position := pos }

/-- Construction of a `LineEndpoint`.  The `line` field is declared
`Optional[Line]` with no default (models.py line 282), so pydantic treats
it as required: the outer `Option` of the `line` argument records whether
the caller supplied it at all, the inner one is the supplied value
(possibly `None`). -/
def mkLineEndpoint (line : Option (Option Line)) (line_id : PyArg) (position : Rat)
    (style : String := "arrow") : Except PyErr LineEndpoint :=
  match validateEndpointStyle style with
  | .error e => .error e
  | .ok st =>
    match line with
    | Option.none => .error (.valueError "Field required")
    | some ln =>
      match ID.validate line_id with
      | .error e => .error e
      | .ok lid =>
        match position_must_be_between_0_and_1 position with
        | .error e => .error e
        | .ok p => .ok (LineEndpoint.mk "lineEndpoint" st ln lid p)

/-- Construction of a `Shape`: the inherited `id` field is validated with
`ID.validate`, the `type` field against its Literal; the remaining fields
carry their models.py defaults. -/
def mkShape (i : PyArg) (type : String) (text : Option String := some "")
    (style : Style := {}) (opacity : Option Int := Option.none)
    (note : Option String := Option.none)
    (boundingBox : List (String × PyVal) :=
      [("x", .int 0), ("y", .int 0), ("w", .int 50), ("h", .int 50)]) :
    Except PyErr Shape :=
  match ID.validate i with
  | .error e => .error e
  | .ok iv =>
    if type ∈ shape_types then
      .ok { id := iv, type := type, text := text, style := style, opacity := opacity,
            note := note, boundingBox := boundingBox }
    else .error (.valueError "Input should be a valid shape type")

/-- Construction of a `Cross` (models.py lines 166-183): a `Shape` of type
`"cross"` whose indent fields `x` and `y` are validated by
`indent_must_be_between_0_and_0_5`. -/
def mkCross (i : PyArg) (x : Option Rat := some 0) (y : Option Rat := some 0) :
    Except PyErr Cross :=
  match ID.validate i with
  | .error e => .error e
  | .ok iv =>
    match indent_must_be_between_0_and_0_5 "x" x with
    | .error e => .error e
    | .ok xv =>
      match indent_must_be_between_0_and_0_5 "y" y with
      | .error e => .error e
      | .ok yv => .ok { toShape := { id := iv, type := "cross" }, x := xv, y := yv }

/-- Construction of a `Line` (models.py lines 239-255): validates the
inherited `id` and the `lineType` Literal; the endpoints are
already-constructed `Endpoint` instances, `stroke` defaults to `Stroke()`
and `text` to the unvalidated default list `[None]`. -/
def mkLine (i : PyArg) (endpoint1 endpoint2 : Endpoint)
    (lineType : String := "straight") (stroke : Stroke := {})
    (text : List (Option Text) := [Option.none]) : Except PyErr Line :=
  match ID.validate i with
  | .error e => .error e
  | .ok iv =>
    if lineType ∈ line_types then
      .ok (Line.mk iv lineType endpoint1 endpoint2 stroke text)
    else .error (.valueError "Input should be straight, curved or elbow")

/-- Construction of a `Page` (models.py lines 327-335): validates the
inherited `id`. -/
def mkPage (i : PyArg) (title : String) (shapes : List Shape := [])
    (lines : List Line := []) : Except PyErr Page :=
  match ID.validate i with
  | .error e => .error e
  | .ok iv => .ok { id := iv, title := title, shapes := shapes, lines := lines }

/-- The I/O operations `LucidchartClient.create_document` performs on its
success path, in program order (client.py lines 96-115): create the
temporary archive file, write `document.json` into the zip, and make the
HTTP POST request. -/
inductive Effect where
  | tempFile
  | zipWrite
  | httpPost
deriving Repr, DecidableEq

/-- Model of `LucidchartClient.create_document` (client.py lines 69-115), modelled
up to its I/O: returns the list of performed I/O operations together with
the raised exception, if any.  The two usage checks at lines 87-90 run
before any I/O, so on either usage error the effect list is empty. -/
def create_document (title : String) (document : Option Document := Option.none)
    (json : String := "") : List Effect × Option PyErr :=
  if document.isNone && json == "" then
    ([], some (.valueError "Either document or json must be provided"))
  else if document.isSome && json != "" then
    ([], some (.valueError "Only one of document or json must be provided"))
  else
    ([.tempFile, .zipWrite, .httpPost], Option.none)

/-- Whether an `Except` result is a success. -/
def isOk : Except PyErr α → Bool
  | .ok _ => true
  | .error _ => false

/-- The messages of the range-check `ValueError`s raised by the validators
of models.py (`Cross.indent_must_be_between_0_and_0_5`,
`LineEndpoint.position_must_be_between_0_and_1`,
`ShapeEndpoint.position_must_be_valid`). -/
def rangeMsgs : List String :=
  ["x must be between 0.0 and 0.5", "y must be between 0.0 and 0.5",
   "position must be between 0.0 and 1.0", "x and y must be between 0.0 and 1.0"]

/-- Whether a result is a range-check `ValueError`. -/
def isRangeErr : Except PyErr α → Bool
  | .error (.valueError m) => rangeMsgs.contains m
  | _ => false

theorem keepVal_true_eq (v : PyVal) : keepVal true v = !v.isNone := by
  cases v <;> rfl

/-- Under the default `ignore_null=True`, the dict comprehension keeps
exactly the pairs whose value is not `None`, dumping the kept values. -/
theorem dump_fields_true (kvs : List (String × PyVal)) :
    dump_fields true kvs =
      (kvs.filter (fun kv => !kv.2.isNone)).map
        (fun kv => (kv.1, recursive_model_dump true kv.2)) := by
  induction kvs with
  | nil => rfl
  | cons kv kvs ih =>
    obtain ⟨k, v⟩ := kv
    simp only [dump_fields, keepVal_true_eq, List.filter_cons]
    cases hv : v.isNone <;> simp [hv, ih]

/-- Under the default `ignore_null=True`, the list comprehension keeps
exactly the elements that are not `None`, dumping the kept elements. -/
theorem dump_list_true (xs : List PyVal) :
    dump_list true xs =
      (xs.filter (fun v => !v.isNone)).map (recursive_model_dump true) := by
  induction xs with
  | nil => rfl
  | cons v vs ih =>
    simp only [dump_list, keepVal_true_eq, List.filter_cons]
    cases hv : v.isNone <;> simp [hv, ih]

/-- C2 (confirmed).  Serializing under the default flags
(`ignore_null=True`) omits from every mapping exactly the fields whose
value is `None`; a field holding the number zero is therefore always
emitted.  Concretely: a `Stroke` with `width=0` dumps to a mapping whose
single surviving field is `"width": 0`, and a `Shape` whose optional
`note` field is unset has no `"note"` key in its dump. -/
theorem C2_null_omitted_zero_kept :
    (∀ kvs : List (String × PyVal),
        dump_fields true kvs =
          (kvs.filter (fun kv => !kv.2.isNone)).map
            (fun kv => (kv.1, recursive_model_dump true kv.2)))
    ∧ recursive_model_dump true (Stroke.toPy { width := some 0 }) =
        .dict [("width", .int 0)]
    ∧ (∀ sh : Shape, sh.note = Option.none →
        "note" ∉ (recursive_model_dump true sh.toPy).keys) := by
  refine ⟨dump_fields_true, rfl, ?_⟩
  intro sh h
  obtain ⟨i, ty, tx, st, op, nt, bb⟩ := sh
  cases h
  cases tx <;> cases op <;>
    simp [Shape.toPy, Style.toPy, optStr, optInt, recursive_model_dump,
      dump_fields_true, PyVal.keys, PyVal.isNone, List.filter_cons]

/-- Witness for C2 at a concrete shape. -/
theorem C2_witness :
    "note" ∉ (recursive_model_dump true
      (Shape.toPy { id := "shape1", type := "rectangle" })).keys :=
  C2_null_omitted_zero_kept.2.2 { id := "shape1", type := "rectangle" } rfl

/-- Two concrete shape endpoints, as in the end-to-end test of
tests/models_test.py. -/
def exEndpointA : Endpoint :=
  .shapeE { style := "none", shapeId := "block0_0", position := [("x", 1), ("y", 1)] }

/-- A second concrete shape endpoint. -/
def exEndpointB : Endpoint :=
  .shapeE { style := "none", shapeId := "block0_1", position := [("x", 1), ("y", 1)] }

/-- C10 (confirmed).  Under the default flags the serializer also drops
`None` elements from sequences; in particular a `Line` constructed without
a `text` argument keeps the field default `[None]`, which serializes as
the key `"text"` mapped to the empty array. -/
theorem C10_list_null_elements_dropped :
    (∀ xs : List PyVal,
        dump_list true xs =
          (xs.filter (fun v => !v.isNone)).map (recursive_model_dump true))
    ∧ (mkLine (.str "line1") exEndpointA exEndpointB).toOption.map
        (fun ln => (recursive_model_dump true ln.toPy).lookup "text") =
        some (some (.list [])) := by
  exact ⟨dump_list_true, rfl⟩

/-- Witness for C10: the general sequence equation evaluated at the
default `text` value `[None]`. -/
theorem C10_witness :
    dump_list true [PyVal.none] =
      (([PyVal.none].filter (fun v => !v.isNone)).map (recursive_model_dump true)) :=
  C10_list_null_elements_dropped.1 [PyVal.none]

/-- C3 (code bug).  The claim says `ID` construction succeeds exactly iff the
string is 1-36 characters over `[A-Za-z0-9\-_.~]`.  The code checks
`re.match(r"^[a-zA-Z0-9\-\_\.\~]{1,36}$", v)`, and Python's `$` anchor
also matches just before one trailing newline, so `"a\n"` — which contains
a character outside the class — is accepted and stored unchanged, and even
a 37-character string ending in a newline is accepted. -/
theorem C3_id_regex_accepts_trailing_newline :
    ID.validate (.str "a\n") = .ok "a\n" ∧ specIdFormat "a\n" = false ∧
      isOk (ID.validate (.str (String.mk (List.replicate 36 'a' ++ ['\n'])))) = true ∧
      specIdFormat (String.mk (List.replicate 36 'a' ++ ['\n'])) = false := by
  refine ⟨rfl, by decide, by decide, by decide⟩

/-- C4 (code bug).  The claim says `Color` construction succeeds only for
`#RGB` / `#RRGGBB`.  The code checks
`re.match(r"^#(?:[0-9a-fA-F]{3}){1,2}$", v)` and Python's `$` anchor also
matches just before one trailing newline, so `"#abc\n"` is accepted and
stored unchanged even though it does not match the claimed format. -/
theorem C4_color_regex_accepts_trailing_newline :
    Color.validate (.str "#abc\n") = .ok "#abc\n" ∧
      specColorFormat "#abc\n" = false := by
  refine ⟨rfl, by decide⟩

/-- C5 (confirmed).  `create_document` raises a `ValueError` exactly when
both the document object and a non-empty json string are supplied, or when
neither is; and whenever it raises, the list of performed I/O operations is
empty — the usage check precedes every file and HTTP operation. -/
theorem C5_create_document_usage_errors :
    ∀ (title : String) (document : Option Document) (json : String),
      (((create_document title document json).2.isSome = true) ↔
        ((document.isNone = true ∧ json = "") ∨
          (document.isSome = true ∧ json ≠ "")))
      ∧ ((create_document title document json).2.isSome = true →
          (create_document title document json).1 = []) := by
  intro title document json
  cases document <;> by_cases h : json = "" <;>
    simp [create_document, h]

/-- Witness for C5: with both a document and a non-empty json supplied the
call errors and performs no I/O. -/
theorem C5_witness :
    (create_document "Test Document" (some { pages := [] }) "x").2.isSome = true ∧
      (create_document "Test Document" (some { pages := [] }) "x").1 = [] := by
  have h := C5_create_document_usage_errors "Test Document" (some { pages := [] }) "x"
  exact ⟨h.1.mpr (Or.inr ⟨rfl, by decide⟩), h.2 (h.1.mpr (Or.inr ⟨rfl, by decide⟩))⟩

/-- The default position dict `{"x": 0.5, "y": 0.5}` passes the
`ShapeEndpoint` position validator. -/
theorem position_default_ok :
    position_must_be_valid [("x", 0.5), ("y", 0.5)] = .ok [("x", 0.5), ("y", 0.5)] := by
  norm_num [position_must_be_valid, List.lookup, show (("y" == "x")) = false from rfl]

/-- The position one half passes the `LineEndpoint` position validator. -/
theorem pos_half_ok : position_must_be_between_0_and_1 (1 / 2) = .ok (1 / 2) := by
  norm_num [position_must_be_between_0_and_1]

/-- C1 (counterexample).  The claim says a `ShapeEndpoint` accepts a raw
identifier string as its target, but `check_shape_or_shapeId` tests
`isinstance(shapeId, ID)`, which is false for a plain `str`: the valid
identifier string `"shape1"` passed raw is rejected with a `ValueError`. -/
theorem C1_counterexample :
    idMatch "shape1" = true ∧
      mkShapeEndpoint (.rawStr "shape1") =
        .error (.valueError "shape_id must be an instance of ID or Shape") :=
  ⟨rfl, rfl⟩

/-- C1 (amended).  `ShapeEndpoint` construction succeeds when the target is
given as an `ID` instance holding a valid identifier or as a constructed
`Shape`; a plain `str` that is not an `ID` instance is always rejected. -/
theorem C1_target_forms :
    (∀ s, idMatch s = true → isOk (mkShapeEndpoint (.idInst s)) = true)
    ∧ (∀ sh : Shape, idMatch sh.id = true →
        isOk (mkShapeEndpoint (.shape sh)) = true)
    ∧ (∀ s, isOk (mkShapeEndpoint (.rawStr s)) = false) := by
  refine ⟨?_, ?_, fun s => rfl⟩
  · intro s h
    simp only [mkShapeEndpoint, check_shape_or_shapeId]
    rw [show validateEndpointStyle "arrow" = .ok "arrow" from rfl]
    simp only [ID.validate, h, if_true]
    rw [Option.getD_none, position_default_ok]
    rfl
  · intro sh h
    simp only [mkShapeEndpoint, check_shape_or_shapeId]
    rw [show validateEndpointStyle "arrow" = .ok "arrow" from rfl]
    simp only [ID.validate, h, if_true]
    rw [Option.getD_none, position_default_ok]
    rfl

/-- Witness for C1 at concrete inputs. -/
theorem C1_witness :
    isOk (mkShapeEndpoint (.idInst "shape1")) = true ∧
      isOk (mkShapeEndpoint (.shape { id := "block0_0", type := "rectangle" })) = true :=
  ⟨C1_target_forms.1 "shape1" rfl,
    C1_target_forms.2.1 { id := "block0_0", type := "rectangle" } rfl⟩

/-- C6 (confirmed).  A `ShapeEndpoint` built from a live `Shape` stores the
shape's identifier string in `shapeId`, not the shape; reassigning the
original shape's `id` afterwards leaves the endpoint's stored `shapeId` at
the old value, so the mutation agrees with the endpoint only when the new
id equals the old one. -/
theorem C6_shape_endpoint_stores_id :
    ∀ (sh : Shape), idMatch sh.id = true → ∀ newId : String,
      ∃ e, mkShapeEndpoint (.shape sh) = .ok e ∧ e.shapeId = sh.id ∧
        ({ sh with id := newId } : Shape).id = newId ∧
        (e.shapeId = ({ sh with id := newId } : Shape).id ↔ newId = sh.id) := by
  intro sh h newId
  refine ⟨{ type := "shapeEndpoint", style := "arrow", shapeId := sh.id,
            position := [("x", 0.5), ("y", 0.5)] }, ?_, rfl, rfl, ?_⟩
  · simp only [mkShapeEndpoint, check_shape_or_shapeId]
    rw [show validateEndpointStyle "arrow" = .ok "arrow" from rfl]
    simp only [ID.validate, h, if_true]
    rw [Option.getD_none, position_default_ok]
  · exact eq_comm

/-- Witness for C6 at a concrete shape and mutation. -/
theorem C6_witness :
    ∃ e, mkShapeEndpoint (.shape { id := "block0_0", type := "rectangle" }) = .ok e ∧
      e.shapeId = ({ id := "block0_0", type := "rectangle" : Shape}).id ∧
      ({ ({ id := "block0_0", type := "rectangle" } : Shape) with id := "other" } : Shape).id = "other" ∧
      (e.shapeId =
        ({ ({ id := "block0_0", type := "rectangle" } : Shape) with id := "other" } : Shape).id ↔
        "other" = ({ id := "block0_0", type := "rectangle" : Shape}).id) :=
  C6_shape_endpoint_stores_id { id := "block0_0", type := "rectangle" } rfl "other"

/-- C9 (confirmed).  The `line` field of `LineEndpoint` is `Optional` with
no default, hence required: construction that does not supply it fails for
every choice of the other arguments, every successful construction
supplied it explicitly, and supplying the null value succeeds. -/
theorem C9_line_field_required :
    (∀ (lid : PyArg) (pos : Rat) (st : String),
        isOk (mkLineEndpoint Option.none lid pos st) = false)
    ∧ (∀ (line : Option (Option Line)) (lid : PyArg) (pos : Rat) (st : String)
        (e : LineEndpoint), mkLineEndpoint line lid pos st = .ok e →
          line.isSome = true)
    ∧ isOk (mkLineEndpoint (some Option.none) (.str "line1") (1 / 2) "none") = true := by
  refine ⟨?_, ?_, ?_⟩
  · intro lid pos st
    by_cases h : st ∈ endpoint_styles <;>
      simp [mkLineEndpoint, validateEndpointStyle, h, isOk]
  · intro line lid pos st e h
    cases line with
    | some l => rfl
    | none =>
      by_cases hst : st ∈ endpoint_styles <;>
        simp [mkLineEndpoint, validateEndpointStyle, hst] at h
  · simp only [mkLineEndpoint]
    rw [show validateEndpointStyle "none" = .ok "none" from rfl,
      show ID.validate (.str "line1") = .ok "line1" from rfl, pos_half_ok]
    rfl

/-- How `mkLineEndpoint` evaluates on the concrete success input used by
the C9 witness. -/
theorem mkLineEndpoint_concrete :
    mkLineEndpoint (some Option.none) (.str "line1") (1 / 2) "none" =
      .ok (LineEndpoint.mk "lineEndpoint" "none" Option.none "line1" (1 / 2)) := by
  simp only [mkLineEndpoint]
  rw [show validateEndpointStyle "none" = .ok "none" from rfl,
    show ID.validate (.str "line1") = .ok "line1" from rfl, pos_half_ok]

/-- Witness for C9: the implication applied at a concrete successful
construction. -/
theorem C9_witness : (some (Option.none : Option Line)).isSome = true :=
  C9_line_field_required.2.1 (some Option.none) (.str "line1") (1 / 2) "none"
    (LineEndpoint.mk "lineEndpoint" "none" Option.none "line1" (1 / 2))
    mkLineEndpoint_concrete

/-- A successful `ID.validate` implies the returned string matches the ID
regex (and equals the input). -/
theorem ID.validate_ok (a : PyArg) (s : String) (h : ID.validate a = .ok s) :
    idMatch s = true := by
  cases a with
  | nonStr => cases h
  | str v =>
    by_cases hv : idMatch v
    · simp only [ID.validate, hv, if_true, Except.ok.injEq] at h
      rw [← h]
      exact hv
    · simp [ID.validate, hv] at h

/-- C8 (counterexample).  The claim says every addressable entity,
`Document` included, carries an Identifier-typed `id` primary key; but a
constructed `Document` has only the fields `version` and `pages` — it
extends `_LucidBase`, not `LucidBase`, so it has no `id` field at all. -/
theorem C8_document_no_id :
    (Document.toPy { version := 1, pages := [] }).keys = ["version", "pages"] ∧
      "id" ∉ (Document.toPy { version := 1, pages := [] }).keys := by
  exact ⟨rfl, by decide⟩

/-- C8 (amended).  `Shape`, `Line` and `Page` each carry an `id` field
validated against the Identifier format (every successful construction has
a matching id), while `Document` has no `id` field: its serialized keys
never include `"id"`. -/
theorem C8_primary_keys :
    (∀ i type text style opacity note boundingBox sh,
        mkShape i type text style opacity note boundingBox = .ok sh →
          idMatch sh.id = true)
    ∧ (∀ i e1 e2 lineType stroke text ln,
        mkLine i e1 e2 lineType stroke text = .ok ln → idMatch ln.id = true)
    ∧ (∀ i title shapes lines pg,
        mkPage i title shapes lines = .ok pg → idMatch pg.id = true)
    ∧ (∀ d : Document, "id" ∉ d.toPy.keys) := by
  refine ⟨?_, ?_, ?_, ?_⟩
  · intro i type text style opacity note boundingBox sh h
    cases hv : ID.validate i with
    | error e => simp [mkShape, hv] at h
    | ok iv =>
      simp only [mkShape, hv] at h
      by_cases ht : type ∈ shape_types
      · simp only [ht, if_true, Except.ok.injEq] at h
        rw [← h]
        exact ID.validate_ok i iv hv
      · simp [ht] at h
  · intro i e1 e2 lineType stroke text ln h
    cases hv : ID.validate i with
    | error e => simp [mkLine, hv] at h
    | ok iv =>
      simp only [mkLine, hv] at h
      by_cases ht : lineType ∈ line_types
      · simp only [ht, if_true, Except.ok.injEq] at h
        rw [← h]
        exact ID.validate_ok i iv hv
      · simp [ht] at h
  · intro i title shapes lines pg h
    cases hv : ID.validate i with
    | error e => simp [mkPage, hv] at h
    | ok iv =>
      simp only [mkPage, hv, Except.ok.injEq] at h
      rw [← h]
      exact ID.validate_ok i iv hv
  · intro d
    simp [Document.toPy, PyVal.keys]

/-- Witness for C8 at concrete constructions. -/
theorem C8_witness :
    idMatch ("shape1" : String) = true ∧ idMatch ("page1" : String) = true :=
  ⟨C8_primary_keys.1 (.str "shape1") "rectangle" (some "") {} Option.none Option.none
      [("x", .int 0), ("y", .int 0), ("w", .int 50), ("h", .int 50)]
      { id := "shape1", type := "rectangle" } rfl,
    C8_primary_keys.2.2.1 (.str "page1") "Test Page" [] []
      { id := "page1", title := "Test Page" } rfl⟩

/-- If the position dict binds `x` or `y` to a value outside `[0, 1]`, the
`ShapeEndpoint` position validator fails. -/
theorem position_must_be_valid_out (pos : List (String × Rat)) (q : Rat)
    (h : pos.lookup "x" = some q ∨ pos.lookup "y" = some q)
    (hq : ¬(0 ≤ q ∧ q ≤ 1)) :
    isOk (position_must_be_valid pos) = false := by
  unfold position_must_be_valid
  rcases h with h | h
  · rw [h]
    cases hy : pos.lookup "y" with
    | none => rfl
    | some y =>
      have hn : ¬(0 ≤ q ∧ q ≤ 1 ∧ 0 ≤ y ∧ y ≤ 1) := fun hc => hq ⟨hc.1, hc.2.1⟩
      simp [hn, isOk]
  · cases hx : pos.lookup "x" with
    | none => rfl
    | some x =>
      rw [h]
      have hn : ¬(0 ≤ x ∧ x ≤ 1 ∧ 0 ≤ q ∧ q ≤ 1) := fun hc => hq ⟨hc.2.2.1, hc.2.2.2⟩
      simp [hn, isOk]

/-- If every `x`/`y` binding of the position dict lies inside `[0, 1]`, the
`ShapeEndpoint` position validator never raises a range error (it either
succeeds or complains about missing coordinates). -/
theorem position_must_be_valid_in (pos : List (String × Rat))
    (h : ∀ q, (pos.lookup "x" = some q ∨ pos.lookup "y" = some q) →
      0 ≤ q ∧ q ≤ 1) :
    isRangeErr (position_must_be_valid pos) = false := by
  unfold position_must_be_valid
  cases hx : pos.lookup "x" with
  | none =>
    cases hy : pos.lookup "y" <;> rfl
  | some x =>
    cases hy : pos.lookup "y" with
    | none => rfl
    | some y =>
      obtain ⟨hx1, hx2⟩ := h x (Or.inl hx)
      obtain ⟨hy1, hy2⟩ := h y (Or.inr hy)
      have hp : (0 ≤ x ∧ x ≤ 1 ∧ 0 ≤ y ∧ y ≤ 1) := ⟨hx1, hx2, hy1, hy2⟩
      simp [hp, isRangeErr]

/-- Values never depend on the success type: an error result is a range
error exactly when its message is one of the range messages. -/
def errIsRange (e : PyErr) : Bool :=
  match e with
  | .valueError m => rangeMsgs.contains m
  | .typeError _ => false

theorem isRangeErr_error {A : Type} (e : PyErr) :
    isRangeErr (Except.error (α := A) e) = errIsRange e := by
  cases e <;> rfl

/-- C7 (confirmed).  Range constraints are enforced at construction with
immediate rejection: a `Cross` fails whenever an indent is outside
`[0, 0.5]`; a `ShapeEndpoint` fails whenever its position dict binds `x`
or `y` outside `[0, 1]`; a `LineEndpoint` fails whenever its position is
outside `[0, 1]`.  Inside the ranges none of the three constructions
raises a range error.  (Failure is an `Except.error`, so no partially
constructed value exists.) -/
theorem C7_numeric_ranges :
    (∀ (i : PyArg) (x y : Option Rat) (q : Rat),
        (x = some q ∨ y = some q) → ¬(0 ≤ q ∧ q ≤ (1 / 2 : Rat)) →
        isOk (mkCross i x y) = false)
    ∧ (∀ (i : PyArg) (x y : Option Rat),
        (∀ q, x = some q → 0 ≤ q ∧ q ≤ (1 / 2 : Rat)) →
        (∀ q, y = some q → 0 ≤ q ∧ q ≤ (1 / 2 : Rat)) →
        isRangeErr (mkCross i x y) = false)
    ∧ (∀ (sid : ShapeIdArg) (pos : List (String × Rat)) (st : String) (q : Rat),
        (pos.lookup "x" = some q ∨ pos.lookup "y" = some q) →
        ¬(0 ≤ q ∧ q ≤ 1) →
        isOk (mkShapeEndpoint sid (some pos) st) = false)
    ∧ (∀ (sid : ShapeIdArg) (pos : List (String × Rat)) (st : String),
        (∀ q, (pos.lookup "x" = some q ∨ pos.lookup "y" = some q) →
          0 ≤ q ∧ q ≤ 1) →
        isRangeErr (mkShapeEndpoint sid (some pos) st) = false)
    ∧ (∀ (line : Option (Option Line)) (lid : PyArg) (st : String) (q : Rat),
        ¬(0 ≤ q ∧ q ≤ 1) → isOk (mkLineEndpoint line lid q st) = false)
    ∧ (∀ (line : Option (Option Line)) (lid : PyArg) (st : String) (q : Rat),
        (0 ≤ q ∧ q ≤ 1) → isRangeErr (mkLineEndpoint line lid q st) = false) := by
  refine ⟨?_, ?_, ?_, ?_, ?_, ?_⟩
  · intro i x y q hxy hq
    cases hv : ID.validate i with
    | error e => simp [mkCross, hv, isOk]
    | ok iv =>
      rcases hxy with rfl | rfl
      · have hx : indent_must_be_between_0_and_0_5 "x" (some q) =
            .error (.valueError ("x" ++ " must be between 0.0 and 0.5")) := by
          simp only [indent_must_be_between_0_and_0_5]
          rw [if_neg hq]
        simp [mkCross, hv, hx, isOk]
      · cases hX : indent_must_be_between_0_and_0_5 "x" x with
        | error e => simp [mkCross, hv, hX, isOk]
        | ok xv =>
          have hy : indent_must_be_between_0_and_0_5 "y" (some q) =
              .error (.valueError ("y" ++ " must be between 0.0 and 0.5")) := by
            simp only [indent_must_be_between_0_and_0_5]
            rw [if_neg hq]
          simp [mkCross, hv, hX, hy, isOk]
  · intro i x y hx hy
    have hX : indent_must_be_between_0_and_0_5 "x" x = .ok x := by
      cases x with
      | none => rfl
      | some q =>
        simp only [indent_must_be_between_0_and_0_5]
        rw [if_pos (hx q rfl)]
    have hY : indent_must_be_between_0_and_0_5 "y" y = .ok y := by
      cases y with
      | none => rfl
      | some q =>
        simp only [indent_must_be_between_0_and_0_5]
        rw [if_pos (hy q rfl)]
    cases i with
    | nonStr => rfl
    | str s =>
      cases h : idMatch s with
      | false => simp [mkCross, ID.validate, h, isRangeErr, rangeMsgs]
      | true => simp [mkCross, ID.validate, h, hX, hY, isRangeErr]
  · intro sid pos st q hlk hq
    cases hc : check_shape_or_shapeId sid with
    | error e => simp [mkShapeEndpoint, hc, isOk]
    | ok s0 =>
      cases hs : validateEndpointStyle st with
      | error e => simp [mkShapeEndpoint, hc, hs, isOk]
      | ok st0 =>
        cases hiv : ID.validate (.str s0) with
        | error e => simp [mkShapeEndpoint, hc, hs, hiv, isOk]
        | ok sid1 =>
          have hp := position_must_be_valid_out pos q hlk hq
          cases hpv : position_must_be_valid pos with
          | error e => simp [mkShapeEndpoint, hc, hs, hiv, hpv, isOk]
          | ok r =>
            rw [hpv] at hp
            simp [isOk] at hp
  · intro sid pos st hin
    have hp := position_must_be_valid_in pos hin
    cases sid with
    | rawStr s => simp [mkShapeEndpoint, check_shape_or_shapeId, isRangeErr, rangeMsgs]
    | other => simp [mkShapeEndpoint, check_shape_or_shapeId, isRangeErr, rangeMsgs]
    | shape sh =>
      by_cases hst : st ∈ endpoint_styles
      · simp only [mkShapeEndpoint, check_shape_or_shapeId]
        rw [show validateEndpointStyle st = .ok st from by
          simp [validateEndpointStyle, hst]]
        cases h : idMatch sh.id with
        | false => simp [ID.validate, h, isRangeErr, rangeMsgs]
        | true =>
          simp only [ID.validate, h, if_true, Option.getD_some]
          cases hpv : position_must_be_valid pos with
          | error e =>
            rw [hpv] at hp
            rw [isRangeErr_error] at hp
            simpa [isRangeErr_error] using hp
          | ok r => simp [isRangeErr]
      · simp [mkShapeEndpoint, check_shape_or_shapeId, validateEndpointStyle, hst,
          isRangeErr, rangeMsgs]
    | idInst s =>
      by_cases hst : st ∈ endpoint_styles
      · simp only [mkShapeEndpoint, check_shape_or_shapeId]
        rw [show validateEndpointStyle st = .ok st from by
          simp [validateEndpointStyle, hst]]
        cases h : idMatch s with
        | false => simp [ID.validate, h, isRangeErr, rangeMsgs]
        | true =>
          simp only [ID.validate, h, if_true, Option.getD_some]
          cases hpv : position_must_be_valid pos with
          | error e =>
            rw [hpv] at hp
            rw [isRangeErr_error] at hp
            simpa [isRangeErr_error] using hp
          | ok r => simp [isRangeErr]
      · simp [mkShapeEndpoint, check_shape_or_shapeId, validateEndpointStyle, hst,
          isRangeErr, rangeMsgs]
  · intro line lid st q hq
    have hp : position_must_be_between_0_and_1 q =
        .error (.valueError "position must be between 0.0 and 1.0") := by
      simp only [position_must_be_between_0_and_1]
      rw [if_neg hq]
    by_cases hst : st ∈ endpoint_styles
    · cases line with
      | none => simp [mkLineEndpoint, validateEndpointStyle, hst, isOk]
      | some ln =>
        cases hid : ID.validate lid with
        | error e => simp [mkLineEndpoint, validateEndpointStyle, hst, hid, isOk]
        | ok lv => simp [mkLineEndpoint, validateEndpointStyle, hst, hid, hp, isOk]
    · simp [mkLineEndpoint, validateEndpointStyle, hst, isOk]
  · intro line lid st q hq
    have hp : position_must_be_between_0_and_1 q = .ok q := by
      simp only [position_must_be_between_0_and_1]
      rw [if_pos hq]
    by_cases hst : st ∈ endpoint_styles
    · cases line with
      | none => simp [mkLineEndpoint, validateEndpointStyle, hst, isRangeErr, rangeMsgs]
      | some ln =>
        cases lid with
        | nonStr => simp [mkLineEndpoint, validateEndpointStyle, hst, ID.validate, isRangeErr]
        | str s =>
          cases h : idMatch s with
          | false =>
            simp [mkLineEndpoint, validateEndpointStyle, hst, ID.validate, h,
              isRangeErr, rangeMsgs]
          | true =>
            simp [mkLineEndpoint, validateEndpointStyle, hst, ID.validate, h, hp,
              isRangeErr]
    · simp [mkLineEndpoint, validateEndpointStyle, hst, isRangeErr, rangeMsgs]

/-- Witness for C7: each conjunct applied at a concrete input. -/
theorem C7_witness :
    isOk (mkCross (.str "c1") (some (3 / 5)) (some 0)) = false ∧
      isRangeErr (mkCross (.str "c1") (some 0) Option.none) = false ∧
      isOk (mkShapeEndpoint (.idInst "shape1")
        (some [("x", 3 / 2), ("y", 1 / 2)]) "arrow") = false ∧
      isRangeErr (mkShapeEndpoint (.idInst "shape1") (some []) "arrow") = false ∧
      isOk (mkLineEndpoint (some Option.none) (.str "l1") (3 / 2) "arrow") = false ∧
      isRangeErr (mkLineEndpoint (some Option.none) (.str "l1") (1 / 2) "arrow") = false := by
  refine ⟨?_, ?_, ?_, ?_, ?_, ?_⟩
  · exact C7_numeric_ranges.1 (.str "c1") (some (3 / 5)) (some 0) (3 / 5)
      (Or.inl rfl) (by norm_num)
  · exact C7_numeric_ranges.2.1 (.str "c1") (some 0) Option.none
      (fun q h => by
        injection h with h2
        rw [← h2]
        norm_num)
      (fun q h => Option.noConfusion h)
  · exact C7_numeric_ranges.2.2.1 (.idInst "shape1") [("x", 3 / 2), ("y", 1 / 2)]
      "arrow" (3 / 2) (Or.inl rfl) (by norm_num)
  · exact C7_numeric_ranges.2.2.2.1 (.idInst "shape1") [] "arrow"
      (fun q h => by rcases h with h | h <;> exact Option.noConfusion h)
  · exact C7_numeric_ranges.2.2.2.2.1 (some Option.none) (.str "l1") "arrow" (3 / 2)
      (by norm_num)
  · exact C7_numeric_ranges.2.2.2.2.2 (some Option.none) (.str "l1") "arrow" (1 / 2)
      (by norm_num)

end Lucid
